import Mathlib

/-
Verification of the SHGScan spectroheliograph scan-control core.
Shallow embedding of SHGScan.py: pure fragments become Lean functions,
the stateful scan procedures become explicit state passing together with
a trace of the mount and camera commands they emit.  Machine floats of the
source are modelled by rationals; Python int() truncation is modelled
explicitly.
-/

namespace SHGScan

/-- Maximum pixel brightness for the MONO16 capture mode (source line 33). -/
def MAX_BRIGHT : ℚ := 65535

/-- Default sun width in pixels (source line 34). -/
def DEFAULT_SUN_WIDTH : ℤ := 2300

/-- Module-level default limb threshold fraction (source line 37).  This is a
module global; the assignment inside getSettings binds a function local and
never changes it, and saveSettings reads this global. -/
def DEFAULT_THRESHOLD : ℚ := 1 / 10

/-! Dynamic limb-crossing detector (acquireFramehandler, source lines 357 to 375). -/

/-- Transient limb-crossing detection state: the two boolean latches, the
countdown used for the every-Nth-frame gate, and the gate value itself
(fields PositiveSignal, EdgePassed, FrameCount, FrameInterval of the form). -/
structure LimbState where
  PositiveSignal : Bool
  EdgePassed : Bool
  FrameCount : ℕ
  FrameInterval : ℕ
  deriving DecidableEq

/-- One invocation of acquireFramehandler (source lines 357 to 375) on the mean
brightness of the central 100x100 cutout of the delivered frame.  When the
countdown is nonzero the call only decrements it; when it is zero the call
evaluates the latches and resets the countdown to FrameInterval. -/
def acquireFramehandler (threshold : ℚ) (s : LimbState) (roiMean : ℚ) : LimbState :=
  if s.FrameCount = 0 then
    let s1 :=
      if s.PositiveSignal = false then
        { s with PositiveSignal := decide (roiMean > threshold) }
      else if s.EdgePassed = false then
        { s with EdgePassed := decide (roiMean < threshold) }
      else s
    { s1 with FrameCount := s1.FrameInterval }
  else
    { s with FrameCount := s.FrameCount - 1 }

/-- Detector state as reset at the start of SlewPastLimb (source lines 389 to
392): both latches false and the countdown loaded with the frame interval. -/
def slewStartLimbState (interval : ℕ) : LimbState :=
  { PositiveSignal := false, EdgePassed := false
    FrameCount := interval, FrameInterval := interval }

/-- Feeding a sequence of sampled ROI means through acquireFramehandler. -/
def runSamples (threshold : ℚ) (s : LimbState) (xs : List ℚ) : LimbState :=
  xs.foldl (acquireFramehandler threshold) s

/-! Scan parameter calculation (CalcScanParams, source lines 641 to 660). -/

/-- Failure modes of CalcScanParams: capture ROI smaller than 100x100, or a
slew factor that computes to exactly zero. -/
inductive CalcError where
  | roiTooSmall
  | frameRateTooSlow
  deriving DecidableEq

/-- CalcScanParams (source lines 641 to 660): checks the capture ROI is at
least 100x100, then computes SlewFactor = -(FrameRate * 120) / sunWidth and
fails when that factor is exactly zero.  The ROI corner fields and the
informational cycle-duration display are UI state and are elided. -/
def CalcScanParams (roiW roiH : ℕ) (frameRate : ℚ) (sunWidth : ℤ) :
    Except CalcError ℚ :=
  if roiW < 100 ∨ roiH < 100 then Except.error CalcError.roiTooSmall
  else
    let slewFactor := -(frameRate * 120) / (sunWidth : ℚ)
    if slewFactor = 0 then Except.error CalcError.frameRateTooSlow
    else Except.ok slewFactor

/-! SlewPastLimb (source lines 388 to 424), embedded as a trace machine.
The body subscribes the per-frame detector, commands the mount, busy-waits
until the EdgePassed latch is set, an abort is requested, or 30 seconds
elapse, then unsubscribes, performs the pad slew and any pending bump.
Each iteration of the waiting loop observes one Poll: the EdgePassed latch
as set asynchronously by acquireFramehandler, the shared TaskAbortFlag, and
the elapsed wall-clock time. -/

/-- Mount and camera commands emitted during SlewPastLimb. -/
inductive Command where
  | moveAxis (axis : ℕ) (rate : ℚ)
  | sleep (seconds : ℚ)
  | notifyError
  deriving DecidableEq

/-- One observation of the shared state made by an iteration of the waiting
loop in SlewPastLimb. -/
structure Poll where
  edgePassed : Bool
  abortFlag : Bool
  elapsed : ℚ
  deriving DecidableEq

/-- How the waiting loop of SlewPastLimb (source lines 402 to 412) exits:
through the EdgePassed latch, through the abort early return, through the
30 second timeout branch, or not at all within the supplied observations. -/
inductive WaitOutcome where
  | edge
  | aborted
  | timedOut (elapsed : ℚ)
  | stuck
  deriving DecidableEq

/-- The waiting loop of SlewPastLimb: at each iteration the loop first tests
the EdgePassed latch, then the TaskAbortFlag (early return), then whether
more than 30 seconds have elapsed (timeout branch with break). -/
def slewWait : List Poll → WaitOutcome
  | [] => WaitOutcome.stuck
  | p :: rest =>
    if p.edgePassed then WaitOutcome.edge
    else if p.abortFlag then WaitOutcome.aborted
    else if p.elapsed > 30 then WaitOutcome.timedOut p.elapsed
    else slewWait rest

/-- Python int() truncates toward zero; on rationals this is num / den with
Int division, which for the positive elapsed times in play equals the floor. -/
def pyInt (q : ℚ) : ℤ := q.num / (q.den : ℤ)

/-- Form fields consulted by SlewPastLimb. -/
structure SlewState where
  SlewFactor : ℚ
  SlewPad : ℚ
  AxisToMove : ℕ
  BumpSlew : ℚ
  deriving DecidableEq

/-- Result of one SlewPastLimb invocation: the returned boolean, whether the
frame handler is still subscribed after the return, the final AmSlewing and
BumpSlew fields, and the emitted command trace. -/
structure SlewResult where
  retval : Bool
  subscribed : Bool
  AmSlewing : Bool
  BumpSlew : ℚ
  commands : List Command
  deriving DecidableEq

/-- DoBumpSlew (source lines 378 to 382): move the axis not used for
acquisition at the pending rate for a quarter second, stop it, and clear the
pending rate.  Returns the emitted commands and the new BumpSlew value. -/
def DoBumpSlew (st : SlewState) : List Command × ℚ :=
  (Command.moveAxis (1 - st.AxisToMove) st.BumpSlew ::
     Command.sleep (1 / 4) :: [Command.moveAxis (1 - st.AxisToMove) 0], 0)

/-- The bump check at the end of SlewPastLimb (source lines 421 to 422):
execute DoBumpSlew only when a bump is pending. -/
def bumpCheck (st : SlewState) : List Command × ℚ :=
  if st.BumpSlew ≠ 0 then DoBumpSlew st else ([], st.BumpSlew)

/-- SlewPastLimb (source lines 388 to 424).  The local pad_rate is assigned
SlewFactor; the source then calls math.copysign(pad_rate, rate) but discards
its result, so pad_rate keeps the sign of SlewFactor.  The abort path is the
early return inside the waiting loop (source line 405): it returns False
before the unsubscribe at line 414 and before AmSlewing is cleared.  The
timeout path notifies, stops, reverses at -rate for int(elapsed) seconds and
stops again.  The edge path unsubscribes, then pads at pad_rate for SlewPad
seconds and stops.  The stuck case (loop never exits within the supplied
observations) is represented like the still-spinning loop state. -/
def SlewPastLimb (st : SlewState) (rate : ℚ) (polls : List Poll) : SlewResult :=
  let pad_rate := st.SlewFactor
  let start := [Command.moveAxis st.AxisToMove rate]
  match slewWait polls with
  | WaitOutcome.aborted =>
      { retval := false, subscribed := true, AmSlewing := true
        BumpSlew := st.BumpSlew, commands := start }
  | WaitOutcome.edge =>
      let bump := bumpCheck st
      { retval := true, subscribed := false, AmSlewing := false
        BumpSlew := bump.2
        commands := start ++
          (Command.moveAxis st.AxisToMove pad_rate ::
             Command.sleep st.SlewPad :: [Command.moveAxis st.AxisToMove 0]) ++
          bump.1 }
  | WaitOutcome.timedOut e =>
      let bump := bumpCheck st
      { retval := false, subscribed := false, AmSlewing := false
        BumpSlew := bump.2
        commands := start ++
          (Command.notifyError ::
             Command.moveAxis st.AxisToMove 0 ::
             Command.moveAxis st.AxisToMove (-rate) ::
             Command.sleep ((pyInt e : ℤ) : ℚ) ::
             [Command.moveAxis st.AxisToMove 0]) ++
          bump.1 }
  | WaitOutcome.stuck =>
      { retval := false, subscribed := true, AmSlewing := true
        BumpSlew := st.BumpSlew, commands := start }

/-- Sign transfer as the spec describes the intended pad rate: the unsigned
magnitude of the first argument carrying the sign of the second.  Modelled
from the spec wording for comparison with the pad rate the source uses. -/
def copysign (x y : ℚ) : ℚ := if y < 0 then -|x| else |x|

/-! Abort recovery (DoAbortTask, source lines 542 to 550, and RestorePos,
source lines 530 to 534), embedded as a transformer on an explicit machine
state together with the trace of mount and camera operations it performs. -/

/-- Mount and camera operations performed by the abort recovery task. -/
inductive MountOp where
  | stopCapture
  | moveAxis (axis : ℕ) (rate : ℚ)
  | setSelectedRate (tok : ℕ)
  | slewTo (pos : ℕ)
  deriving DecidableEq

/-- External machine state touched by abort recovery: the camera capture
flag, the commanded rate of each mount axis, the mount position (an opaque
coordinate token) and the currently selected mount slew rate (an opaque
token; the 32x sidereal rate of RestorePos is the token 32). -/
structure Machine where
  capturing : Bool
  rate0 : ℚ
  rate1 : ℚ
  position : ℕ
  selectedRate : ℕ
  deriving DecidableEq

/-- Commanded rate of the given axis (axis 0 is RA, anything else is Dec). -/
def axisRate (m : Machine) (axis : ℕ) : ℚ :=
  if axis = 0 then m.rate0 else m.rate1

/-- MoveAxis as a state update. -/
def setAxisRate (m : Machine) (axis : ℕ) (r : ℚ) : Machine :=
  if axis = 0 then { m with rate0 := r } else { m with rate1 := r }

/-- Script-side session state touched by abort recovery. -/
structure Session where
  SavedCoords : ℕ
  AmSlewing : Bool
  BumpSlew : ℚ
  TaskAbortFlag : Bool
  deriving DecidableEq

/-- RestorePos (source lines 530 to 534): remember the selected mount rate,
select the 32x sidereal rate, slew to the saved coordinates, and restore the
remembered rate. -/
def RestorePos (m : Machine) (savedCoords : ℕ) : Machine × List MountOp :=
  let saveRate := m.selectedRate
  let m1 := { m with selectedRate := 32 }
  let m2 := { m1 with position := savedCoords }
  let m3 := { m2 with selectedRate := saveRate }
  (m3, MountOp.setSelectedRate 32 :: MountOp.slewTo savedCoords ::
        [MountOp.setSelectedRate saveRate])

/-- DoAbortTask (source lines 542 to 550): stop any running capture, stop the
acquisition axis, restore the saved position, clear AmSlewing, assign -1 to
BumpSlew (the source literally writes self.BumpSlew = -1), and clear the
abort flag. -/
def DoAbortTask (m : Machine) (s : Session) (axisToMove : ℕ) :
    Machine × Session × List MountOp :=
  let m1 := { m with capturing := false }
  let m2 := setAxisRate m1 axisToMove 0
  let r := RestorePos m2 s.SavedCoords
  (r.1,
   { s with AmSlewing := false, BumpSlew := -1, TaskAbortFlag := false },
   MountOp.stopCapture :: MountOp.moveAxis axisToMove 0 :: r.2)

/-! The acquisition run (DoGo, source lines 464 to 528), abstracted to the
control flow that decides whether the final reposition step can run.  The
cycle loop assigns startTime and endTime inside its body only; the reposition
step after the loop sleeps for (endTime - startTime)/2, which raises an
unbound-local error when the loop body never ran. -/

/-- Environment of one DoGo run: whether the abort flag is observed after the
initial slew to the edge, whether it is observed at the first or second abort
check of each cycle, and the measured duration of each cycle. -/
structure GoEnv where
  abortAfterPreSlew : Bool
  abortA : ℕ → Bool
  abortB : ℕ → Bool
  cycleDuration : ℕ → ℚ

/-- Outcome of a DoGo run: abort recovery taken, an unbound-local failure at
the reposition step (endTime and startTime never assigned), or completion
with the reposition sleep duration. -/
inductive GoOutcome where
  | aborted
  | unboundLocal
  | completed (repositionSleep : ℚ)
  deriving DecidableEq

/-- The cycle loop of DoGo (source lines 477 to 520) followed by the
reposition step (source lines 525 to 527).  The third argument carries the
value of endTime - startTime if the loop body has run at least once; the
reposition step consumes it, failing when it was never assigned. -/
def goLoop (env : GoEnv) : ℕ → ℕ → Option ℚ → GoOutcome
  | 0, _, last =>
      match last with
      | none => GoOutcome.unboundLocal
      | some d => GoOutcome.completed (d / 2)
  | r + 1, idx, _ =>
      let d := env.cycleDuration idx
      if env.abortA idx then GoOutcome.aborted
      else if env.abortB idx then GoOutcome.aborted
      else goLoop env r (idx + 1) (some d)

/-- DoGo (source lines 464 to 528): save position, slew past the limb, check
the abort flag, run the cycle loop, then reposition.  The per-cycle capture
and slew commands are abstracted away; only the abort checks and the
timestamp threading that the reposition step depends on are retained. -/
def DoGo (numCycles : ℕ) (env : GoEnv) : GoOutcome :=
  if env.abortAfterPreSlew then GoOutcome.aborted
  else goLoop env numCycles 0 none

/-! Settings persistence (getSettings, source lines 99 to 139, and
saveSettings, source lines 142 to 151).  The file is a list of key and value
pairs; numeric values written with the .2f format are modelled by rounding
to two decimals.  saveSettings writes the module global DEFAULT_THRESHOLD
for the LimbThreshold key: the assignment DEFAULT_THRESHOLD = float(value)
inside getSettings creates a function local (no global declaration), so the
global never changes from 0.1. -/

/-- A value on one line of the settings file, after the regex split. -/
inductive SettingVal where
  | intVal (n : ℤ)
  | decVal (q : ℚ)
  | boolVal (b : Bool)
  deriving DecidableEq

/-- The nine persisted form fields.  LimbThreshold is stored premultiplied by
MAX_BRIGHT, as in the form. -/
structure ScanConfig where
  NumCycles : ℤ
  SunWidth : ℤ
  CycleSleep : ℚ
  SlewPad : ℚ
  LimbThreshold : ℚ
  Bidirectional : Bool
  BumpSwap : Bool
  BumpRate : ℤ
  AxisToMove : ℤ
  deriving DecidableEq

/-- Rounding to two decimal places, the effect of the .2f format on the
values in play. -/
def round2 (q : ℚ) : ℚ := ((⌊q * 100 + 1 / 2⌋ : ℤ) : ℚ) / 100

/-- saveSettings (source lines 142 to 151): the nine key and value pairs of
the written file.  CycleSleep and SlewPad are written from the form fields
with two decimals; LimbThreshold is written from the module global
DEFAULT_THRESHOLD, not from the form state. -/
def saveSettings (c : ScanConfig) : List (String × SettingVal) :=
  ("NumCycles", SettingVal.intVal c.NumCycles) ::
  ("SunWidth", SettingVal.intVal c.SunWidth) ::
  ("CycleSleep", SettingVal.decVal (round2 c.CycleSleep)) ::
  ("SlewPad", SettingVal.decVal (round2 c.SlewPad)) ::
  ("LimbThreshold", SettingVal.decVal (round2 DEFAULT_THRESHOLD)) ::
  ("Bidirectional", SettingVal.boolVal c.Bidirectional) ::
  ("BumpSwap", SettingVal.boolVal c.BumpSwap) ::
  ("BumpRate", SettingVal.intVal c.BumpRate) ::
  [("AxisToMove", SettingVal.intVal c.AxisToMove)]

/-- Conversion of a parsed value to an integer, as int(value) succeeds on
integer-shaped values. -/
def asInt : SettingVal → Option ℤ
  | SettingVal.intVal n => some n
  | _ => none

/-- Conversion of a parsed value to a rational, as float(value). -/
def asDec : SettingVal → Option ℚ
  | SettingVal.decVal q => some q
  | _ => none

/-- Conversion of a parsed value to a boolean, as the comparison with the
string True. -/
def asBool : SettingVal → Option Bool
  | SettingVal.boolVal b => some b
  | _ => none

/-- One iteration of the parsing loop of getSettings (source lines 108 to
133): the if and elif chain on the key assigns the converted value; lines
that match no known key are warned about and skipped.  LimbThreshold
multiplies the read fraction by MAX_BRIGHT. -/
def applySetting (c : ScanConfig) (kv : String × SettingVal) : ScanConfig :=
  if kv.1 = "NumCycles" then
    match asInt kv.2 with | some n => { c with NumCycles := n } | none => c
  else if kv.1 = "SunWidth" then
    match asInt kv.2 with | some n => { c with SunWidth := n } | none => c
  else if kv.1 = "CycleSleep" then
    match asDec kv.2 with | some q => { c with CycleSleep := q } | none => c
  else if kv.1 = "SlewPad" then
    match asDec kv.2 with | some q => { c with SlewPad := q } | none => c
  else if kv.1 = "LimbThreshold" then
    match asDec kv.2 with
    | some q => { c with LimbThreshold := MAX_BRIGHT * q }
    | none => c
  else if kv.1 = "Bidirectional" then
    match asBool kv.2 with | some b => { c with Bidirectional := b } | none => c
  else if kv.1 = "BumpSwap" then
    match asBool kv.2 with | some b => { c with BumpSwap := b } | none => c
  else if kv.1 = "BumpRate" then
    match asInt kv.2 with | some n => { c with BumpRate := n } | none => c
  else if kv.1 = "AxisToMove" then
    match asInt kv.2 with | some n => { c with AxisToMove := n } | none => c
  else c

/-- getSettings (source lines 99 to 139) on an existing settings file: fold
the parsing loop over the lines, starting from the current form state. -/
def getSettings (c : ScanConfig) (file : List (String × SettingVal)) :
    ScanConfig :=
  file.foldl applySetting c

/-- A concrete form state whose limb threshold corresponds to the fraction
0.3, used to exhibit the settings round trip. -/
def sampleConfig : ScanConfig :=
  { NumCycles := 15, SunWidth := 2300, CycleSleep := 1 / 2, SlewPad := 1 / 2,
    LimbThreshold := MAX_BRIGHT * (3 / 10), Bidirectional := false,
    BumpSwap := false, BumpRate := 8, AxisToMove := 0 }

/-! Width measurement (measureSunFramehandler, source lines 319 to 354).
A frame is modelled by its width and a column brightness function; the
frames of interest are uniform along rows, so the mean of a 10 by 100
cutout at column x is the mean of the 10 columns starting at x. -/

/-- Mean of the 10 pixel wide window starting at column x. -/
def windowMean (f : ℕ → ℚ) (x : ℕ) : ℚ :=
  (∑ i in Finset.range 10, f (x + i)) / 10

/-- Mean across the whole frame. -/
def frameMean (camWidth : ℕ) (f : ℕ → ℚ) : ℚ :=
  (∑ i in Finset.range camWidth, f i) / (camWidth : ℚ)

/-- The left-to-right edge scan (source lines 329 to 336): starting at
column x, advance while the window mean is below the threshold; the loop
runs while x is below imgWidth, so the fuel is the number of columns left
before imgWidth.  Returns none when the loop exhausts the range, matching
the -1 sentinel. -/
def scanRight (f : ℕ → ℚ) (t : ℚ) : ℕ → ℕ → Option ℕ
  | _, 0 => none
  | x, fuel + 1 =>
      if windowMean f x < t then scanRight f t (x + 1) fuel else some x

/-- The right-to-left edge scan (source lines 339 to 346): starting at
column x, retreat while the window mean is below the threshold, down to
column 0.  Returns none when the loop exhausts the range. -/
def scanLeft (f : ℕ → ℚ) (t : ℚ) : ℕ → Option ℕ
  | 0 => if windowMean f 0 < t then none else some 0
  | x + 1 => if windowMean f (x + 1) < t then scanLeft f t x else some (x + 1)

/-- The stored measurement: SunWidth and SunDecenter form fields. -/
structure SunMeasure where
  sunWidth : ℤ
  sunDecenter : ℚ
  deriving DecidableEq

/-- Result of one measureSunFramehandler call: the stored measurement after
the call and whether the sun-not-in-frame error was reported. -/
structure MeasureOut where
  meas : SunMeasure
  notInFrame : Bool
  deriving DecidableEq

/-- The both-edges-found test of source line 348: both scans returned a
column strictly greater than zero. -/
def edgesOk : Option ℕ → Option ℕ → Bool
  | some s0, some e0 => decide (0 < s0) && decide (0 < e0)
  | _, _ => false

/-- measureSunFramehandler (source lines 319 to 354).  When the whole-frame
mean is below the threshold the error is reported and the prior measurement
is kept.  Otherwise both edge scans run over imgWidth = camWidth - 10
columns; when both edges are found at positive columns the width is
endEdge - startEdge and the decenter is width/2 + startEdge minus
(imgWidth + 10)/2.  In the default branch the source assigns the width
default to self.SunWidth but assigns zero to self.sunDecenter, a different
attribute than self.SunDecenter, so the stored decenter keeps its prior
value there. -/
def measureSunFramehandler (camWidth : ℕ) (threshold : ℚ) (f : ℕ → ℚ)
    (prior : SunMeasure) : MeasureOut :=
  if frameMean camWidth f < threshold then { meas := prior, notInFrame := true }
  else
    let imgWidth := camWidth - 10
    let startEdge := scanRight f threshold 0 imgWidth
    let endEdge := scanLeft f threshold imgWidth
    match startEdge, endEdge with
    | some s0, some e0 =>
        if 0 < s0 ∧ 0 < e0 then
          let width : ℤ := (e0 : ℤ) - (s0 : ℤ)
          { meas :=
              { sunWidth := width
                sunDecenter :=
                  (width : ℚ) / 2 + (s0 : ℚ) - ((imgWidth : ℚ) + 10) / 2 }
            notInFrame := false }
        else
          { meas := { sunWidth := DEFAULT_SUN_WIDTH
                      sunDecenter := prior.sunDecenter }
            notInFrame := false }
    | _, _ =>
        { meas := { sunWidth := DEFAULT_SUN_WIDTH
                    sunDecenter := prior.sunDecenter }
          notInFrame := false }

/-- An ideal single bright band: brightness B on columns s to s + w - 1 and
zero elsewhere. -/
def bandFrame (s w : ℕ) (B : ℚ) : ℕ → ℚ :=
  fun i => if s ≤ i ∧ i < s + w then B else 0

/-! Theorems. -/

/-- C3: the slew-factor computation returns -(frameRate * 120) / sunWidth, in
particular -(1/2) for frameRate 10 and sunWidth 2400, and (with an adequate
capture ROI and a positive sun width) it fails with FrameRateTooSlow exactly
when the computed factor is zero, that is exactly when the frame rate is 0. -/
theorem CalcScanParams_slewFactor_spec :
    CalcScanParams 100 100 10 2400 = Except.ok (-(1 : ℚ) / 2) ∧
    ∀ (roiW roiH : ℕ) (frameRate : ℚ) (sunWidth : ℤ),
      100 ≤ roiW → 100 ≤ roiH → 0 < sunWidth →
      (CalcScanParams roiW roiH frameRate sunWidth =
          Except.error CalcError.frameRateTooSlow ↔ frameRate = 0) := by
  constructor
  · norm_num [CalcScanParams]
  · intro roiW roiH fr w hW hH hw
    have hcond : ¬ (roiW < 100 ∨ roiH < 100) := by omega
    have hwQ : (w : ℚ) ≠ 0 := Int.cast_ne_zero.mpr (by omega)
    have hfac : (-(fr * 120) / (w : ℚ) = 0) ↔ fr = 0 := by
      rw [div_eq_zero_iff, neg_eq_zero, mul_eq_zero]
      simp [hwQ]
    simp only [CalcScanParams, if_neg hcond]
    by_cases h0 : -(fr * 120) / (w : ℚ) = 0
    · rw [if_pos h0]
      exact iff_of_true rfl (hfac.mp h0)
    · rw [if_neg h0]
      exact iff_of_false (by simp) (fun hh => h0 (hfac.mpr hh))

/-- C3 witness: frame rate 0 yields FrameRateTooSlow. -/
theorem CalcScanParams_slewFactor_spec_witness :
    CalcScanParams 100 100 0 2400 = Except.error CalcError.frameRateTooSlow :=
  (CalcScanParams_slewFactor_spec.2 100 100 0 2400 (le_refl 100) (le_refl 100)
    (by norm_num)).mpr rfl

/-- C7: when the whole-frame mean is below the threshold the measurement
reports the sun-not-in-frame error, aborts before any edge scan, and keeps
the previously stored width and decenter unchanged. -/
theorem measureSun_below_threshold_keeps_prior
    (camWidth : ℕ) (threshold : ℚ) (f : ℕ → ℚ) (prior : SunMeasure)
    (h : frameMean camWidth f < threshold) :
    measureSunFramehandler camWidth threshold f prior =
      { meas := prior, notInFrame := true } := by
  rw [measureSunFramehandler, if_pos h]

/-- C7 witness: an all-dark frame below a threshold of 1 keeps the prior
measurement and reports the error. -/
theorem measureSun_below_threshold_keeps_prior_witness :
    measureSunFramehandler 40 1 (fun _ => 0)
        { sunWidth := 2300, sunDecenter := 5 } =
      { meas := { sunWidth := 2300, sunDecenter := 5 }, notInFrame := true } :=
  measureSun_below_threshold_keeps_prior 40 1 (fun _ => 0) _
    (by norm_num [frameMean])

/-- C10: the final reposition step of DoGo completes only when at least one
cycle ran: with numCycles = 0 and no abort the run fails referencing the
never-assigned cycle timestamps, and a completed reposition implies
numCycles is at least 1. -/
theorem DoGo_reposition_requires_cycle :
    (∀ env : GoEnv, env.abortAfterPreSlew = false →
        DoGo 0 env = GoOutcome.unboundLocal) ∧
    (∀ (numCycles : ℕ) (env : GoEnv) (d : ℚ),
        DoGo numCycles env = GoOutcome.completed d → 1 ≤ numCycles) := by
  constructor
  · intro env h
    simp [DoGo, h, goLoop]
  · intro n env d h
    cases n with
    | zero =>
        exfalso
        unfold DoGo at h
        split_ifs at h
        all_goals simp_all [goLoop]
    | succ n => omega

/-- C10 witness: a run with zero cycles and no abort fails at the
reposition step. -/
theorem DoGo_reposition_requires_cycle_witness :
    DoGo 0 { abortAfterPreSlew := false, abortA := fun _ => false,
             abortB := fun _ => false, cycleDuration := fun _ => 1 } =
      GoOutcome.unboundLocal :=
  DoGo_reposition_requires_cycle.1 _ rfl

/-- C1: the abort recovery task stops the capture, commands the acquisition
axis to rate 0, restores the saved position through the save-rate, fast-rate,
slew, restore-rate sequence, clears AmSlewing and the abort flag, but
assigns -1 to BumpSlew instead of clearing it to 0. -/
theorem DoAbortTask_spec (m : Machine) (s : Session) (axisToMove : ℕ) :
    (DoAbortTask m s axisToMove).1.capturing = false ∧
    axisRate (DoAbortTask m s axisToMove).1 axisToMove = 0 ∧
    (DoAbortTask m s axisToMove).1.position = s.SavedCoords ∧
    (DoAbortTask m s axisToMove).1.selectedRate = m.selectedRate ∧
    (DoAbortTask m s axisToMove).2.1.AmSlewing = false ∧
    (DoAbortTask m s axisToMove).2.1.TaskAbortFlag = false ∧
    (DoAbortTask m s axisToMove).2.1.BumpSlew = -1 ∧
    (DoAbortTask m s axisToMove).2.2 =
      MountOp.stopCapture :: MountOp.moveAxis axisToMove 0 ::
      MountOp.setSelectedRate 32 :: MountOp.slewTo s.SavedCoords ::
      [MountOp.setSelectedRate m.selectedRate] := by
  unfold DoAbortTask RestorePos setAxisRate axisRate
  by_cases h : axisToMove = 0
  · simp [h]
  · simp [h]

/-- C4: at a failing input (SlewFactor -1/2, slew rate +4, edge detected)
the pad slew is commanded at the raw SlewFactor -1/2 because the result of
math.copysign is discarded, while the sign-matched pad rate the claim
describes would be +1/2. -/
theorem SlewPastLimb_pad_ignores_direction :
    (SlewPastLimb
        { SlewFactor := -(1 / 2 : ℚ), SlewPad := 1 / 2, AxisToMove := 0,
          BumpSlew := 0 }
        4 [{ edgePassed := true, abortFlag := false, elapsed := 0 }]).commands =
      Command.moveAxis 0 4 :: Command.moveAxis 0 (-(1 / 2 : ℚ)) ::
        Command.sleep (1 / 2) :: [Command.moveAxis 0 0] ∧
    -(1 / 2 : ℚ) ≠ copysign (-(1 / 2 : ℚ)) 4 := by
  constructor
  · rfl
  · rw [copysign, if_neg (by norm_num : ¬ (4 : ℚ) < 0), abs_neg,
      abs_of_nonneg (by norm_num : (0 : ℚ) ≤ 1 / 2)]
    norm_num

/-- C9 counterexample: on the abort exit path SlewPastLimb returns with the
frame handler still subscribed, refuting the claim that the subscription is
released on every exit path. -/
theorem SlewPastLimb_abort_leaves_subscribed :
    (SlewPastLimb
        { SlewFactor := -(1 / 2 : ℚ), SlewPad := 1 / 2, AxisToMove := 0,
          BumpSlew := 0 }
        1 [{ edgePassed := false, abortFlag := true, elapsed := 1 }]).subscribed =
      true := rfl

/-- C9 amended: the per-frame subscription is released on the edge-detected
and timeout exit paths, while on the abort path the call returns false
immediately with the handler still subscribed. -/
theorem SlewPastLimb_subscription_paths (st : SlewState) (rate : ℚ)
    (polls : List Poll) :
    (slewWait polls = WaitOutcome.edge →
        (SlewPastLimb st rate polls).subscribed = false) ∧
    (∀ e, slewWait polls = WaitOutcome.timedOut e →
        (SlewPastLimb st rate polls).subscribed = false) ∧
    (slewWait polls = WaitOutcome.aborted →
        (SlewPastLimb st rate polls).subscribed = true ∧
          (SlewPastLimb st rate polls).retval = false) := by
  refine ⟨fun h => ?_, fun e h => ?_, fun h => ?_⟩ <;> simp [SlewPastLimb, h]

/-- C9 witness: with the edge observed on the first poll the handler is
unsubscribed on return. -/
theorem SlewPastLimb_subscription_paths_witness :
    (SlewPastLimb
        { SlewFactor := -(1 / 2 : ℚ), SlewPad := 1 / 2, AxisToMove := 0,
          BumpSlew := 0 }
        1 [{ edgePassed := true, abortFlag := false, elapsed := 1 }]).subscribed =
      false :=
  (SlewPastLimb_subscription_paths _ _ _).1 rfl

/-- Integer casts into the rationals never equal 61/2; used to separate the
truncated reverse-slew duration from the fractional elapsed time. -/
theorem intCast_ne_half_of_61 (n : ℤ) : ((n : ℤ) : ℚ) ≠ 61 / 2 := by
  intro h
  have h2 : ((2 * n : ℤ) : ℚ) = 61 := by push_cast; linarith
  have h3 : (2 * n : ℤ) = 61 := by exact_mod_cast h2
  omega

/-- C5 counterexample: with the timeout observed at an elapsed time of 30.5
seconds the call returns false but the reverse slew does not last a duration
equal to the elapsed time: no sleep command of 30.5 seconds is emitted (the
duration is truncated to a whole number of seconds). -/
theorem SlewPastLimb_timeout_sleep_truncated :
    (SlewPastLimb
        { SlewFactor := -(1 / 2 : ℚ), SlewPad := 1 / 2, AxisToMove := 0,
          BumpSlew := 0 }
        1 [{ edgePassed := false, abortFlag := false, elapsed := 61 / 2 }]).retval =
      false ∧
    Command.sleep (61 / 2 : ℚ) ∉
      (SlewPastLimb
        { SlewFactor := -(1 / 2 : ℚ), SlewPad := 1 / 2, AxisToMove := 0,
          BumpSlew := 0 }
        1 [{ edgePassed := false, abortFlag := false, elapsed := 61 / 2 }]).commands := by
  have hw : slewWait
      [{ edgePassed := false, abortFlag := false, elapsed := (61 / 2 : ℚ) }] =
      WaitOutcome.timedOut (61 / 2) := by
    rw [slewWait]
    norm_num
  have hne : ((pyInt (61 / 2 : ℚ) : ℤ) : ℚ) ≠ 61 / 2 := intCast_ne_half_of_61 _
  refine ⟨?_, ?_⟩ <;> simp [SlewPastLimb, hw, bumpCheck, hne, Ne.symm hne]

/-- C5 amended: on a timeout with no pending bump, SlewPastLimb reports the
error, stops the axis, reverses at -rate for the elapsed time truncated to a
whole number of seconds, stops again, unsubscribes and returns false. -/
theorem SlewPastLimb_timeout_recovery (st : SlewState) (rate : ℚ)
    (polls : List Poll) (e : ℚ)
    (hw : slewWait polls = WaitOutcome.timedOut e) (hb : st.BumpSlew = 0) :
    SlewPastLimb st rate polls =
      { retval := false, subscribed := false, AmSlewing := false, BumpSlew := 0,
        commands := Command.moveAxis st.AxisToMove rate ::
          Command.notifyError :: Command.moveAxis st.AxisToMove 0 ::
          Command.moveAxis st.AxisToMove (-rate) ::
          Command.sleep ((pyInt e : ℤ) : ℚ) ::
          [Command.moveAxis st.AxisToMove 0] } := by
  simp [SlewPastLimb, hw, bumpCheck, hb]

/-- C5 witness: a concrete timeout at 31 seconds produces the reverse-slew
recovery trace and returns false. -/
theorem SlewPastLimb_timeout_recovery_witness :
    SlewPastLimb
        { SlewFactor := -(1 / 2 : ℚ), SlewPad := 1 / 2, AxisToMove := 0,
          BumpSlew := 0 }
        1 [{ edgePassed := false, abortFlag := false, elapsed := 31 }] =
      { retval := false, subscribed := false, AmSlewing := false, BumpSlew := 0,
        commands := [Command.moveAxis 0 1, Command.notifyError,
          Command.moveAxis 0 0, Command.moveAxis 0 (-1), Command.sleep 31,
          Command.moveAxis 0 0] } := by
  have h := SlewPastLimb_timeout_recovery
    { SlewFactor := -(1 / 2 : ℚ), SlewPad := 1 / 2, AxisToMove := 0,
      BumpSlew := 0 }
    1 [{ edgePassed := false, abortFlag := false, elapsed := 31 }] 31 rfl rfl
  have hp : ((pyInt 31 : ℤ) : ℚ) = 31 := by decide
  rw [hp] at h
  simpa using h

/-- C2 counterexample: with the frame-interval gate set to 1 and the
countdown loaded as SlewPastLimb loads it, the sample sequence below, below,
above, above, below relative to a threshold of 50 leaves EdgePassed false
after five samples, refuting the claim that EdgePassed is reached exactly at
the fifth sample. -/
theorem limb_gate_one_no_edge_at_fifth :
    (runSamples 50 (slewStartLimbState 1) [0, 0, 100, 100, 0]).EdgePassed =
      false := by decide

/-- C2 amended: with the gate set to 1 the detector evaluates only every
second call (the countdown is loaded with the interval and an evaluation
happens only once it reaches zero, after which it is reset to the interval),
so on below, below, above, above, below, below the EdgePassed state is
reached exactly at the sixth sample and never earlier. -/
theorem limb_gate_one_edge_at_sixth (b a t : ℚ) (hb : b < t) (ha : t < a) :
    (∀ n, n < 6 → (runSamples t (slewStartLimbState 1)
        (List.take n [b, b, a, a, b, b])).EdgePassed = false) ∧
    (runSamples t (slewStartLimbState 1) [b, b, a, a, b, b]).EdgePassed =
      true := by
  have h1 : ¬ (b > t) := not_lt.mpr hb.le
  constructor
  · intro n hn
    interval_cases n <;>
      simp [runSamples, acquireFramehandler, slewStartLimbState, hb, ha, h1]
  · simp [runSamples, acquireFramehandler, slewStartLimbState, hb, ha, h1]

/-- C2 witness: the amended statement at the concrete samples 0 and 100 with
threshold 50. -/
theorem limb_gate_one_edge_at_sixth_witness :
    (0 : ℚ) < 50 ∧ (50 : ℚ) < 100 ∧
    (runSamples 50 (slewStartLimbState 1) [0, 0, 100, 100, 0, 0]).EdgePassed =
      true :=
  ⟨by norm_num, by norm_num,
    (limb_gate_one_edge_at_sixth 0 100 50 (by norm_num) (by norm_num)).2⟩

/-- C8: the settings round trip loses the limb threshold.  Writing the
sample configuration (threshold fraction 0.3) and reading it back returns
every field unchanged except LimbThreshold, which comes back as the module
default fraction 0.1 times MAX_BRIGHT, because saveSettings writes the
module global DEFAULT_THRESHOLD and the getSettings assignment to it only
binds a function local. -/
theorem settings_roundtrip_threshold_lost :
    getSettings sampleConfig (saveSettings sampleConfig) =
      { sampleConfig with LimbThreshold := MAX_BRIGHT * (1 / 10) } ∧
    MAX_BRIGHT * (1 / 10 : ℚ) ≠ sampleConfig.LimbThreshold := by
  constructor
  · simp [getSettings, saveSettings, applySetting, asInt, asDec, asBool]
    norm_num [sampleConfig, round2, MAX_BRIGHT, DEFAULT_THRESHOLD,
      Int.floor_eq_iff]
  · norm_num [sampleConfig, MAX_BRIGHT]

/-- The columns of a 10 pixel window that fall inside the band form an
interval. -/
theorem band_filter_eq (s w x : ℕ) :
    (Finset.range 10).filter (fun i => s ≤ x + i ∧ x + i < s + w) =
      Finset.Ico (s - x) (min (s + w - x) 10) := by
  ext i
  simp only [Finset.mem_filter, Finset.mem_range, Finset.mem_Ico, lt_min_iff]
  omega

/-- Window mean over an ideal band: the band brightness times the overlap of
the window with the band, divided by the window width. -/
theorem windowMean_band (s w : ℕ) (B : ℚ) (x : ℕ) :
    windowMean (bandFrame s w B) x =
      ((min (s + w - x) 10 - (s - x) : ℕ) : ℚ) * B / 10 := by
  unfold windowMean bandFrame
  rw [Finset.sum_ite, Finset.sum_const, Finset.sum_const_zero, add_zero,
    band_filter_eq, Nat.card_Ico, nsmul_eq_mul]

/-- Whole-frame mean over an ideal band contained in the frame. -/
theorem frameMean_band (camW s w : ℕ) (B : ℚ) (h : s + w ≤ camW) :
    frameMean camW (bandFrame s w B) = (w : ℚ) * B / (camW : ℚ) := by
  unfold frameMean bandFrame
  rw [Finset.sum_ite, Finset.sum_const, Finset.sum_const_zero, add_zero]
  have hf : (Finset.range camW).filter (fun i => s ≤ i ∧ i < s + w) =
      Finset.Ico s (s + w) := by
    ext i
    simp only [Finset.mem_filter, Finset.mem_range, Finset.mem_Ico]
    omega
  rw [hf, Nat.card_Ico, Nat.add_sub_cancel_left, nsmul_eq_mul]

/-- An overlap of at most k - 1 columns keeps the window mean below any
threshold above (k - 1) B / 10. -/
theorem band_mean_lt_of_le (k m : ℕ) (B t : ℚ) (hk1 : 1 ≤ k) (hB : 0 < B)
    (ht1 : ((k : ℚ) - 1) * B / 10 < t) (hle : m ≤ k - 1) :
    (m : ℚ) * B / 10 < t := by
  have hcast : (m : ℚ) ≤ (k : ℚ) - 1 := by
    have h2 : (m : ℚ) ≤ ((k - 1 : ℕ) : ℚ) := by exact_mod_cast hle
    have h3 : ((k - 1 : ℕ) : ℚ) = (k : ℚ) - 1 := by
      rw [Nat.cast_sub hk1]
      norm_num
    rw [h3] at h2
    exact h2
  have hmul : (m : ℚ) * B ≤ ((k : ℚ) - 1) * B :=
    mul_le_mul_of_nonneg_right hcast hB.le
  calc (m : ℚ) * B / 10 ≤ ((k : ℚ) - 1) * B / 10 := by linarith
    _ < t := ht1

/-- Windows strictly left of the first window with overlap k stay below the
threshold. -/
theorem band_window_below_left (s w k y : ℕ) (B t : ℚ) (hw : 10 ≤ w)
    (_hs : 10 ≤ s) (hk1 : 1 ≤ k) (hk10 : k ≤ 10) (hB : 0 < B)
    (ht1 : ((k : ℚ) - 1) * B / 10 < t) (hy : y < s + k - 10) :
    windowMean (bandFrame s w B) y < t := by
  rw [windowMean_band]
  have hmin : min (s + w - y) 10 = 10 := min_eq_right (by omega)
  rw [hmin]
  exact band_mean_lt_of_le k _ B t hk1 hB ht1 (by omega)

/-- Windows strictly right of the last window with overlap k stay below the
threshold. -/
theorem band_window_below_right (s w k y : ℕ) (B t : ℚ) (hw : 10 ≤ w)
    (hk1 : 1 ≤ k) (hk10 : k ≤ 10) (hB : 0 < B)
    (ht1 : ((k : ℚ) - 1) * B / 10 < t) (hy : s + w - k < y) :
    windowMean (bandFrame s w B) y < t := by
  rw [windowMean_band]
  have hmin : min (s + w - y) 10 = s + w - y := min_eq_left (by omega)
  rw [hmin]
  exact band_mean_lt_of_le k _ B t hk1 hB ht1 (by omega)

/-- The window starting at s + k - 10 overlaps the band in exactly k columns
and meets the threshold. -/
theorem band_window_at_start (s w k : ℕ) (B t : ℚ) (hw : 10 ≤ w)
    (hs : 10 ≤ s) (hk1 : 1 ≤ k) (hk10 : k ≤ 10)
    (ht2 : t ≤ (k : ℚ) * B / 10) :
    ¬ windowMean (bandFrame s w B) (s + k - 10) < t := by
  rw [windowMean_band]
  have hmin : min (s + w - (s + k - 10)) 10 = 10 := min_eq_right (by omega)
  rw [hmin]
  have hov : (10 - (s - (s + k - 10)) : ℕ) = k := by omega
  rw [hov]
  exact not_lt.mpr ht2

/-- The window starting at s + w - k overlaps the band in exactly k columns
and meets the threshold. -/
theorem band_window_at_end (s w k : ℕ) (B t : ℚ) (hw : 10 ≤ w)
    (hk1 : 1 ≤ k) (hk10 : k ≤ 10) (ht2 : t ≤ (k : ℚ) * B / 10) :
    ¬ windowMean (bandFrame s w B) (s + w - k) < t := by
  rw [windowMean_band]
  have hmin : min (s + w - (s + w - k)) 10 = s + w - (s + w - k) :=
    min_eq_left (by omega)
  rw [hmin]
  have hov : (s + w - (s + w - k) - (s - (s + w - k)) : ℕ) = k := by omega
  rw [hov]
  exact not_lt.mpr ht2

/-- The left-to-right scan returns the first column whose window meets the
threshold, provided that column is inside the scanned range. -/
theorem scanRight_finds (f : ℕ → ℚ) (t : ℚ) (x0 : ℕ) :
    ∀ (fuel start : ℕ), start ≤ x0 → x0 < start + fuel →
      (∀ y, start ≤ y → y < x0 → windowMean f y < t) →
      ¬ windowMean f x0 < t →
      scanRight f t start fuel = some x0 := by
  intro fuel
  induction fuel with
  | zero =>
      intro start h1 h2 _ _
      exact absurd h2 (by omega)
  | succ n ih =>
      intro start h1 h2 hlt hge
      rw [scanRight]
      by_cases hc : windowMean f start < t
      · rw [if_pos hc]
        have hne : start ≠ x0 := by
          intro he
          rw [he] at hc
          exact hge hc
        exact ih (start + 1) (by omega) (by omega)
          (fun y hy1 hy2 => hlt y (by omega) hy2) hge
      · rw [if_neg hc]
        have heq : start = x0 := by
          by_contra hne
          exact hc (hlt start le_rfl (by omega))
        rw [heq]

/-- The right-to-left scan returns the last column whose window meets the
threshold, provided it lies at or below the starting column. -/
theorem scanLeft_finds (f : ℕ → ℚ) (t : ℚ) (x1 : ℕ) :
    ∀ start : ℕ, x1 ≤ start →
      (∀ y, x1 < y → y ≤ start → windowMean f y < t) →
      ¬ windowMean f x1 < t →
      scanLeft f t start = some x1 := by
  intro start
  induction start with
  | zero =>
      intro h1 _ hge
      have hx : x1 = 0 := by omega
      subst hx
      rw [scanLeft, if_neg hge]
  | succ n ih =>
      intro h1 hgt hge
      rw [scanLeft]
      by_cases hc : x1 = n + 1
      · subst hc
        rw [if_neg hge]
      · rw [if_pos (hgt (n + 1) (by omega) le_rfl)]
        exact ih (by omega) (fun y hy1 hy2 => hgt y hy1 (by omega)) hge

/-- C6 amended: on an ideal single-band frame (brightness B on w columns
starting at s, zero elsewhere) with 10 ≤ s, 10 ≤ w, the band inside the
scanned range, whole-frame mean meeting the threshold, and k between 1 and
10 the least overlap meeting the threshold (that is (k-1)B/10 < t ≤ kB/10),
the measurement stores width = w + 10 - 2k and decenter = the true decenter
minus 5, rather than values within one pixel; and when the both-edges-found
test fails the width defaults to 2300 while the stored decenter keeps its
prior value (the source assigns zero to a differently named attribute). -/
theorem measureSun_band_exact :
    (∀ (camWidth s w k : ℕ) (B t : ℚ) (prior : SunMeasure),
      10 ≤ w → 10 ≤ s → s + w + 10 ≤ camWidth → 1 ≤ k → k ≤ 10 → 0 < B →
      ((k : ℚ) - 1) * B / 10 < t → t ≤ (k : ℚ) * B / 10 →
      ¬ frameMean camWidth (bandFrame s w B) < t →
      measureSunFramehandler camWidth t (bandFrame s w B) prior =
        { meas := { sunWidth := (w : ℤ) + 10 - 2 * (k : ℤ)
                    sunDecenter :=
                      ((s : ℚ) + (w : ℚ) / 2 - (camWidth : ℚ) / 2) - 5 }
          notInFrame := false }) ∧
    (∀ (camWidth : ℕ) (t : ℚ) (f : ℕ → ℚ) (prior : SunMeasure),
      ¬ frameMean camWidth f < t →
      edgesOk (scanRight f t 0 (camWidth - 10))
          (scanLeft f t (camWidth - 10)) = false →
      measureSunFramehandler camWidth t f prior =
        { meas := { sunWidth := DEFAULT_SUN_WIDTH
                    sunDecenter := prior.sunDecenter }
          notInFrame := false }) := by
  constructor
  · intro camWidth s w k B t prior hw hs hcam hk1 hk10 hB ht1 ht2 hmean
    have hSE : scanRight (bandFrame s w B) t 0 (camWidth - 10) =
        some (s + k - 10) := by
      apply scanRight_finds
      · omega
      · omega
      · intro y _ hy2
        exact band_window_below_left s w k y B t hw hs hk1 hk10 hB ht1 hy2
      · exact band_window_at_start s w k B t hw hs hk1 hk10 ht2
    have hEE : scanLeft (bandFrame s w B) t (camWidth - 10) =
        some (s + w - k) := by
      apply scanLeft_finds
      · omega
      · intro y hy1 _
        exact band_window_below_right s w k y B t hw hk1 hk10 hB ht1 hy1
      · exact band_window_at_end s w k B t hw hk1 hk10 ht2
    simp only [measureSunFramehandler]
    rw [if_neg hmean]
    simp only [hSE, hEE]
    rw [if_pos (⟨by omega, by omega⟩ : 0 < s + k - 10 ∧ 0 < s + w - k)]
    congr 1
    congr 1
    · omega
    · push_cast [Nat.cast_sub (show k ≤ s + w by omega),
        Nat.cast_sub (show 10 ≤ s + k by omega),
        Nat.cast_sub (show 10 ≤ camWidth by omega)]
      ring
  · intro camWidth t f prior h1 h2
    simp only [measureSunFramehandler]
    rw [if_neg h1]
    rcases hs : scanRight f t 0 (camWidth - 10) with _ | s0
    · rcases he : scanLeft f t (camWidth - 10) with _ | e0
      · simp only [hs, he]
      · simp only [hs, he]
    · rcases he : scanLeft f t (camWidth - 10) with _ | e0
      · simp only [hs, he]
      · rw [hs, he] at h2
        have hno : ¬ (0 < s0 ∧ 0 < e0) := by
          intro hpos
          simp only [edgesOk] at h2
          simp [hpos.1, hpos.2] at h2
        simp only [hs, he]
        rw [if_neg hno]

/-- C6 counterexample: a centered ideal band of width 20 on a 40 column
frame with brightness 10 and threshold 1 (a tenth of the band brightness,
the default threshold ratio) has its width measured as 28 and its decenter
as -5, while the true width is 20 and the true decenter is 0: neither is
within one pixel, refuting the claim as stated. -/
theorem measureSun_band_not_within_one :
    measureSunFramehandler 40 1 (bandFrame 10 20 10)
        { sunWidth := 2300, sunDecenter := 0 } =
      { meas := { sunWidth := 28, sunDecenter := -5 }, notInFrame := false } ∧
    ¬ (|(28 : ℤ) - 20| ≤ 1) ∧ ¬ (|(-5 : ℚ) - 0| ≤ 1) := by
  have hfm : ¬ frameMean 40 (bandFrame 10 20 10) < 1 := by
    rw [frameMean_band 40 10 20 10 (by norm_num)]
    norm_num
  have hSE : scanRight (bandFrame 10 20 10) 1 0 (40 - 10) = some 1 := by
    apply scanRight_finds
    · omega
    · omega
    · intro y _ hy2
      exact band_window_below_left 10 20 1 y 10 1 (by norm_num) (by norm_num)
        (by norm_num) (by norm_num) (by norm_num) (by norm_num) (by omega)
    · exact band_window_at_start 10 20 1 10 1 (by norm_num) (by norm_num)
        (by norm_num) (by norm_num) (by norm_num)
  have hEE : scanLeft (bandFrame 10 20 10) 1 (40 - 10) = some 29 := by
    apply scanLeft_finds
    · omega
    · intro y hy1 _
      exact band_window_below_right 10 20 1 y 10 1 (by norm_num) (by norm_num)
        (by norm_num) (by norm_num) (by norm_num) (by omega)
    · exact band_window_at_end 10 20 1 10 1 (by norm_num) (by norm_num)
        (by norm_num) (by norm_num)
  refine ⟨?_, by decide, ?_⟩
  · simp only [measureSunFramehandler]
    rw [if_neg hfm]
    simp only [hSE, hEE]
    rw [if_pos (⟨by omega, by omega⟩ : 0 < 1 ∧ 0 < 29)]
    norm_num
  · rw [show (-5 : ℚ) - 0 = -5 by ring, abs_neg,
      abs_of_nonneg (by norm_num : (0 : ℚ) ≤ 5)]
    norm_num

/-- C6 witness: the amended statement at the counterexample frame, with the
whole-frame mean discharged through the band formula. -/
theorem measureSun_band_exact_witness :
    measureSunFramehandler 40 1 (bandFrame 10 20 10)
        { sunWidth := 2300, sunDecenter := 0 } =
      { meas := { sunWidth := 28, sunDecenter := -5 }, notInFrame := false } ∧
    measureSunFramehandler 40 1 (fun _ => 10)
        { sunWidth := 2300, sunDecenter := 7 } =
      { meas := { sunWidth := 2300, sunDecenter := 7 }, notInFrame := false } := by
  constructor
  · have h := measureSun_band_exact.1 40 10 20 1 10 1
      { sunWidth := 2300, sunDecenter := 0 }
      (by norm_num) (by norm_num) (by norm_num) (by norm_num) (by norm_num)
      (by norm_num) (by norm_num) (by norm_num)
      (by rw [frameMean_band 40 10 20 10 (by norm_num)]; norm_num)
    norm_num at h
    exact h
  · have hall : ∀ y, ¬ windowMean (fun _ => (10 : ℚ)) y < 1 := by
      intro y
      rw [windowMean]
      norm_num [Finset.sum_const, Finset.card_range]
    have h2 : edgesOk (scanRight (fun _ => (10 : ℚ)) 1 0 (40 - 10))
        (scanLeft (fun _ => (10 : ℚ)) 1 (40 - 10)) = false := by
      have hSE : scanRight (fun _ => (10 : ℚ)) 1 0 (40 - 10) = some 0 := by
        apply scanRight_finds
        · omega
        · omega
        · intro y _ hy2
          exact absurd hy2 (by omega)
        · exact hall 0
      have hEE : scanLeft (fun _ => (10 : ℚ)) 1 (40 - 10) = some 30 := by
        apply scanLeft_finds
        · omega
        · intro y hy1 hy2
          exact absurd hy2 (by omega)
        · exact hall 30
      rw [hSE, hEE]
      rfl
    have h := measureSun_band_exact.2 40 1 (fun _ => 10)
      { sunWidth := 2300, sunDecenter := 7 }
      (by rw [frameMean]; norm_num [Finset.sum_const, Finset.card_range]) h2
    simpa [DEFAULT_SUN_WIDTH] using h

end SHGScan
